import Mathlib

/-!
Shallow embedding of the flocking simulation core from `src/main.rs`
(`Bird`, `Flock` and their methods), with the `f32` arithmetic of the
source idealised as exact real arithmetic.  Rendering and windowing code
is out of scope.  Definitions follow the source line by line; theorems
settle the specification claims about them.
-/

open Classical

/-- Simulation constant `MAX_SPEED` from the source (`0.02`). -/
noncomputable def MAX_SPEED : ℝ := 0.02

/-- Simulation constant `NEIGHBOUR_RADIUS` from the source (`1.0`). -/
noncomputable def NEIGHBOUR_RADIUS : ℝ := 1.0

/-- Simulation constant `SEPARATION_WEIGHT` from the source (`1.5`). -/
noncomputable def SEPARATION_WEIGHT : ℝ := 1.5

/-- Simulation constant `ALIGNMENT_WEIGHT` from the source (`1.0`). -/
noncomputable def ALIGNMENT_WEIGHT : ℝ := 1.0

/-- Simulation constant `COHESION_WEIGHT` from the source (`1.0`). -/
noncomputable def COHESION_WEIGHT : ℝ := 1.0

/-- Simulation constant `GRAVITY` from the source (`0.0005`). -/
noncomputable def GRAVITY : ℝ := 0.0005

/-- Simulation constant `BOUNDARY_SIZE` from the source (`5.0`). -/
noncomputable def BOUNDARY_SIZE : ℝ := 5.0

/-- Simulation constant `BOUNDARY_FORCE` from the source (`0.1`). -/
noncomputable def BOUNDARY_FORCE : ℝ := 0.1

/-- The `Bird` struct: three `[f32; 3]` fields, modelled as `Fin 3 → ℝ`. -/
@[ext]
structure Bird where
  position : Fin 3 → ℝ
  velocity : Fin 3 → ℝ
  acceleration : Fin 3 → ℝ

/-- `Bird::apply_force`: adds each component of the force into the
corresponding acceleration component; position and velocity untouched. -/
def Bird.apply_force (b : Bird) (force : Fin 3 → ℝ) : Bird :=
  { b with acceleration := fun k => b.acceleration k + force k }

/-- `Bird::distance_to`: Euclidean distance between the two positions,
computed exactly as in the source (`sqrt (dx*dx + dy*dy + dz*dz)`). -/
noncomputable def Bird.distance_to (b other : Bird) : ℝ :=
  Real.sqrt ((b.position 0 - other.position 0) * (b.position 0 - other.position 0) +
    (b.position 1 - other.position 1) * (b.position 1 - other.position 1) +
    (b.position 2 - other.position 2) * (b.position 2 - other.position 2))

/-- The speed recomputed inside `Bird::update`'s loop body:
`(vx*vx + vy*vy + vz*vz).sqrt()` over the full 3-axis velocity. -/
noncomputable def speedOf (v : Fin 3 → ℝ) : ℝ :=
  Real.sqrt (v 0 * v 0 + v 1 * v 1 + v 2 * v 2)

/-- Velocity after step `self.velocity[i] += self.acceleration[i]`
of axis `i` of `Bird::update`. -/
def velAfterAccel (b : Bird) (i : Fin 3) : Fin 3 → ℝ :=
  Function.update b.velocity i (b.velocity i + b.acceleration i)

/-- Velocity after the per-axis speed clamp of axis `i` of `Bird::update`:
if the recomputed speed exceeds `MAX_SPEED`, only component `i` is scaled
by `MAX_SPEED / speed`. -/
noncomputable def velAfterClamp (b : Bird) (i : Fin 3) : Fin 3 → ℝ :=
  if MAX_SPEED < speedOf (velAfterAccel b i) then
    Function.update (velAfterAccel b i) i
      (velAfterAccel b i i * (MAX_SPEED / speedOf (velAfterAccel b i)))
  else velAfterAccel b i

/-- Position after step `self.position[i] += self.velocity[i]`
of axis `i` of `Bird::update` (pre-clamp, post-integration position). -/
noncomputable def posAfterMove (b : Bird) (i : Fin 3) : Fin 3 → ℝ :=
  Function.update b.position i (b.position i + velAfterClamp b i i)

/-- One iteration (axis `i`) of the `for i in 0..3` loop of `Bird::update`:
velocity gains the accumulated acceleration, the per-axis speed clamp runs,
the position integrates the velocity, boundary reflection fires when the
new position component leaves `[-BOUNDARY_SIZE/2, BOUNDARY_SIZE/2]`, and
the acceleration component is reset to `0`. -/
noncomputable def axisUpdate (b : Bird) (i : Fin 3) : Bird :=
  { position :=
      if BOUNDARY_SIZE / 2 < |posAfterMove b i i| then
        Function.update (posAfterMove b i) i
          (if 0 < posAfterMove b i i then BOUNDARY_SIZE / 2 else -(BOUNDARY_SIZE / 2))
      else posAfterMove b i,
    velocity :=
      if BOUNDARY_SIZE / 2 < |posAfterMove b i i| then
        Function.update (velAfterClamp b i) i (-(velAfterClamp b i i) * 0.8)
      else velAfterClamp b i,
    acceleration := Function.update b.acceleration i 0 }

/-- `Bird::update`: the three axis iterations in order x, y, z. -/
noncomputable def Bird.update (b : Bird) : Bird :=
  axisUpdate (axisUpdate (axisUpdate b 0) 1) 2

/-- `f32::signum` restricted to real (non-NaN) arguments: `1` for
positive-or-zero input, `-1` for negative input.  In the source it is only
applied to position components of absolute value `> BOUNDARY_SIZE/2 - 1`,
hence never to zero. -/
noncomputable def signum (x : ℝ) : ℝ :=
  if x < 0 then -1 else 1

/-- The four accumulators of the neighbour scan in `Flock::update`. -/
structure ScanAcc where
  separation : Fin 3 → ℝ
  alignment : Fin 3 → ℝ
  cohesion : Fin 3 → ℝ
  count : ℕ

/-- Initial accumulator values of the neighbour scan (all zero). -/
def ScanAcc.init : ScanAcc :=
  { separation := fun _ => 0, alignment := fun _ => 0,
    cohesion := fun _ => 0, count := 0 }

/-- One iteration of the inner `for other in birds_shared.iter()` loop of
`Flock::update`, for the bird `b` currently being updated and the snapshot
entry `other`.

The source first compares `bird as *const _` with `other as *const _` and
skips the entry when the two pointers are equal.  `bird` points into
`self.birds` while `other` points into the cloned snapshot vector
`birds_copy` (a separate live allocation), so the two addresses are never
equal and the skip is dead code; the embedding therefore processes every
snapshot entry, including the clone of `b` itself. -/
noncomputable def scanStep (b : Bird) (other : Bird) (acc : ScanAcc) : ScanAcc :=
  if b.distance_to other < NEIGHBOUR_RADIUS then
    { separation := fun k => acc.separation k + (b.position k - other.position k),
      alignment := fun k => acc.alignment k + other.velocity k,
      cohesion := fun k => acc.cohesion k + other.position k,
      count := acc.count + 1 }
  else acc

/-- The full neighbour scan of `Flock::update` for one bird: fold
`scanStep` over the snapshot in iteration order. -/
noncomputable def scan (b : Bird) (snapshot : List Bird) : ScanAcc :=
  snapshot.foldl (fun acc other => scanStep b other acc) ScanAcc.init

/-- The boundary-repulsion check of `Flock::update` for one axis: if the
position component is within one unit of the hard boundary, apply a force
of magnitude `BOUNDARY_FORCE` on that axis, directed opposite the sign of
the position component. -/
noncomputable def boundaryForceStep (b : Bird) (i : Fin 3) : Bird :=
  if BOUNDARY_SIZE / 2 - 1 < |b.position i| then
    b.apply_force (fun k => if k = i then -(signum (b.position i)) * BOUNDARY_FORCE else 0)
  else b

/-- The `for i in 0..3` boundary-repulsion loop of `Flock::update`. -/
noncomputable def boundaryForces (b : Bird) : Bird :=
  boundaryForceStep (boundaryForceStep (boundaryForceStep b 0) 1) 2

/-- The whole per-bird closure body of `Flock::update`: neighbour scan
against the snapshot, weighted separation / alignment / cohesion forces
when at least one neighbour was counted, gravity, boundary repulsion,
then `Bird::update`. -/
noncomputable def stepBird (snapshot : List Bird) (b : Bird) : Bird :=
  let acc := scan b snapshot
  let b1 :=
    if 0 < acc.count then
      ((b.apply_force (fun k => acc.separation k * SEPARATION_WEIGHT)).apply_force
          (fun k => (acc.alignment k / (acc.count : ℝ) - b.velocity k) * ALIGNMENT_WEIGHT)).apply_force
        (fun k => (acc.cohesion k / (acc.count : ℝ) - b.position k) * COHESION_WEIGHT)
    else b
  let b2 := b1.apply_force ![0, -GRAVITY, 0]
  (boundaryForces b2).update

/-- The `Flock` struct: a vector of birds. -/
structure Flock where
  birds : List Bird

/-- `Flock::update`: clone the bird vector as an immutable snapshot, then
replace every bird by the result of its per-bird closure run against that
snapshot.  `rayon`'s `par_iter_mut` gives each closure exclusive mutable
access to exactly one element while the snapshot is shared read-only, so
the parallel loop denotes this map. -/
noncomputable def Flock.update (f : Flock) : Flock :=
  ⟨f.birds.map (stepBird f.birds)⟩

/-- Placeholder bird used only to give `List.getD` a default; never read
on in-bounds indices. -/
def defaultBird : Bird :=
  { position := fun _ => 0, velocity := fun _ => 0, acceleration := fun _ => 0 }

/-- A sequential schedule of the per-bird updates of `Flock::update`:
process the bird indices in the order given by `order`, each update
reading the fixed snapshot and the bird's own current state, writing only
that bird's slot.  Running it with any permutation of the indices models
one possible interleaving of the parallel loop. -/
noncomputable def runSchedule (snapshot : List Bird) (order : List ℕ)
    (birds : List Bird) : List Bird :=
  order.foldl (fun bs k => bs.set k (stepBird snapshot (bs.getD k defaultBird))) birds

/-! ### Basic facts about the axis iteration -/

theorem axisUpdate_acceleration (b : Bird) (i : Fin 3) :
    (axisUpdate b i).acceleration = Function.update b.acceleration i 0 := rfl

theorem axisUpdate_velocity_ne (b : Bird) {i j : Fin 3} (h : j ≠ i) :
    (axisUpdate b j).velocity i = b.velocity i := by
  unfold axisUpdate velAfterClamp velAfterAccel
  split_ifs <;> simp [Function.update_noteq h.symm]

theorem axisUpdate_position_ne (b : Bird) {i j : Fin 3} (h : j ≠ i) :
    (axisUpdate b j).position i = b.position i := by
  unfold axisUpdate posAfterMove
  split_ifs <;> simp [Function.update_noteq h.symm]

theorem abs_le_speedOf (v : Fin 3 → ℝ) (i : Fin 3) : |v i| ≤ speedOf v := by
  have h : v i * v i ≤ v 0 * v 0 + v 1 * v 1 + v 2 * v 2 := by
    have h0 := mul_self_nonneg (v 0)
    have h1 := mul_self_nonneg (v 1)
    have h2 := mul_self_nonneg (v 2)
    match i with
    | 0 => linarith
    | 1 => linarith
    | 2 => linarith
  calc |v i| = Real.sqrt (v i * v i) := (Real.sqrt_mul_self_eq_abs (v i)).symm
    _ ≤ speedOf v := Real.sqrt_le_sqrt h

theorem MAX_SPEED_pos : (0 : ℝ) < MAX_SPEED := by norm_num [MAX_SPEED]

theorem velAfterClamp_self_le (b : Bird) (i : Fin 3) :
    |velAfterClamp b i i| ≤ MAX_SPEED := by
  unfold velAfterClamp
  split_ifs with hc
  · have hs : 0 < speedOf (velAfterAccel b i) := lt_trans MAX_SPEED_pos hc
    have habs : |velAfterAccel b i i| ≤ speedOf (velAfterAccel b i) :=
      abs_le_speedOf (velAfterAccel b i) i
    rw [Function.update_same, abs_mul, abs_of_pos (div_pos MAX_SPEED_pos hs)]
    calc |velAfterAccel b i i| * (MAX_SPEED / speedOf (velAfterAccel b i))
        ≤ speedOf (velAfterAccel b i) * (MAX_SPEED / speedOf (velAfterAccel b i)) := by
          exact mul_le_mul_of_nonneg_right habs (le_of_lt (div_pos MAX_SPEED_pos hs))
      _ = MAX_SPEED := by field_simp
  · exact le_trans (abs_le_speedOf (velAfterAccel b i) i) (not_lt.mp hc)

theorem axisUpdate_velocity_self_le (b : Bird) (i : Fin 3) :
    |(axisUpdate b i).velocity i| ≤ MAX_SPEED := by
  by_cases hh : BOUNDARY_SIZE / 2 < |posAfterMove b i i|
  · have hv : (axisUpdate b i).velocity i = -(velAfterClamp b i i) * 0.8 := by
      simp [axisUpdate, hh]
    rw [hv]
    have h8 : |(-(velAfterClamp b i i)) * 0.8| = |velAfterClamp b i i| * 0.8 := by
      rw [abs_mul, abs_neg]
      norm_num
    rw [h8]
    nlinarith [velAfterClamp_self_le b i, abs_nonneg (velAfterClamp b i i), MAX_SPEED_pos]
  · have hv : (axisUpdate b i).velocity i = velAfterClamp b i i := by
      simp [axisUpdate, hh]
    rw [hv]
    exact velAfterClamp_self_le b i

theorem BOUNDARY_SIZE_pos : (0 : ℝ) < BOUNDARY_SIZE := by norm_num [BOUNDARY_SIZE]

theorem axisUpdate_position_self_le (b : Bird) (i : Fin 3) :
    |(axisUpdate b i).position i| ≤ BOUNDARY_SIZE / 2 := by
  by_cases hh : BOUNDARY_SIZE / 2 < |posAfterMove b i i|
  · have hp : (axisUpdate b i).position i =
        if 0 < posAfterMove b i i then BOUNDARY_SIZE / 2 else -(BOUNDARY_SIZE / 2) := by
      simp [axisUpdate, hh]
    rw [hp]
    have habs : |BOUNDARY_SIZE / 2| = BOUNDARY_SIZE / 2 :=
      abs_of_nonneg (by norm_num [BOUNDARY_SIZE])
    split_ifs
    · rw [habs]
    · rw [abs_neg, habs]
  · have hp : (axisUpdate b i).position i = posAfterMove b i i := by
      simp [axisUpdate, hh]
    rw [hp]
    exact not_lt.mp hh

/-- Claim C6: after `Bird::update`, all three acceleration components are
zero (each is reset as the last step of its axis iteration). -/
theorem update_acceleration_reset (b : Bird) (i : Fin 3) :
    (Bird.update b).acceleration i = 0 := by
  rw [Bird.update, axisUpdate_acceleration, axisUpdate_acceleration,
    axisUpdate_acceleration]
  fin_cases i <;>
    simp [Function.update_noteq, Function.update_same, Fin.ext_iff]

/-- Claim C9: `Bird::apply_force` adds each force component into the
matching acceleration component, leaves position and velocity unchanged,
and repeated calls accumulate by componentwise addition. -/
theorem apply_force_adds_componentwise (b : Bird) (f g : Fin 3 → ℝ) :
    (b.apply_force f).acceleration = (fun k => b.acceleration k + f k) ∧
    (b.apply_force f).position = b.position ∧
    (b.apply_force f).velocity = b.velocity ∧
    ((b.apply_force f).apply_force g).acceleration =
      fun k => b.acceleration k + (f k + g k) := by
  refine ⟨rfl, rfl, rfl, ?_⟩
  funext k
  simp only [Bird.apply_force]
  ring

/-- Claim C10: `Bird::distance_to` is symmetric, non-negative, and zero
for coinciding positions. -/
theorem distance_to_sym_nonneg_refl :
    (∀ a b : Bird, a.distance_to b = b.distance_to a) ∧
    (∀ a b : Bird, 0 ≤ a.distance_to b) ∧
    (∀ a b : Bird, a.position = b.position → a.distance_to b = 0) := by
  refine ⟨?_, ?_, ?_⟩
  · intro a b
    unfold Bird.distance_to
    congr 1
    ring
  · intro a b
    exact Real.sqrt_nonneg _
  · intro a b h
    simp [Bird.distance_to, h]

/-- The all-zero bird: a concrete sample input, also used as the
(never read in bounds) `List.getD` default in `runSchedule`. -/
noncomputable def birdA : Bird :=
  { position := ![1, 2, 3], velocity := fun _ => 0, acceleration := fun _ => 0 }

/-- A bird sharing `birdA`'s position but with a different velocity. -/
noncomputable def birdB : Bird :=
  { position := ![1, 2, 3], velocity := ![4, 5, 6], acceleration := fun _ => 0 }

/-- Witness for C10: two identity-distinct birds with coinciding
positions are at distance zero. -/
theorem distance_to_sym_nonneg_refl_witness : birdA.distance_to birdB = 0 :=
  distance_to_sym_nonneg_refl.2.2 birdA birdB rfl

/-- Claim C2 (amended): after `Bird::update` every single velocity
component is bounded by `MAX_SPEED` in absolute value, and hence the full
Euclidean norm is at most `sqrt 3 * MAX_SPEED`.  (The full norm itself is
not bounded by `MAX_SPEED`; see the counterexample.) -/
theorem update_velocity_componentwise_capped :
    (∀ (b : Bird) (i : Fin 3), |(Bird.update b).velocity i| ≤ MAX_SPEED) ∧
    (∀ b : Bird, speedOf ((Bird.update b).velocity) ≤ Real.sqrt 3 * MAX_SPEED) := by
  have hcomp : ∀ (b : Bird) (i : Fin 3), |(Bird.update b).velocity i| ≤ MAX_SPEED := by
    intro b i
    rw [Bird.update]
    match i with
    | 0 =>
      rw [axisUpdate_velocity_ne _ (by decide), axisUpdate_velocity_ne _ (by decide)]
      exact axisUpdate_velocity_self_le b 0
    | 1 =>
      rw [axisUpdate_velocity_ne _ (by decide)]
      exact axisUpdate_velocity_self_le (axisUpdate b 0) 1
    | 2 =>
      exact axisUpdate_velocity_self_le (axisUpdate (axisUpdate b 0) 1) 2
  refine ⟨hcomp, ?_⟩
  intro b
  set w := (Bird.update b).velocity with hw
  have h0 := abs_le.mp (hcomp b 0)
  have h1 := abs_le.mp (hcomp b 1)
  have h2 := abs_le.mp (hcomp b 2)
  have hsum : w 0 * w 0 + w 1 * w 1 + w 2 * w 2 ≤ 3 * MAX_SPEED ^ 2 := by
    nlinarith [h0.1, h0.2, h1.1, h1.2, h2.1, h2.2]
  calc speedOf w ≤ Real.sqrt (3 * MAX_SPEED ^ 2) := Real.sqrt_le_sqrt hsum
    _ = Real.sqrt 3 * MAX_SPEED := by
        rw [Real.sqrt_mul (by norm_num), Real.sqrt_sq (le_of_lt MAX_SPEED_pos)]

/-- Claim C4: after `Bird::update` every position component stays within
the half-boundary, and whenever the post-integration component of an axis
iteration exceeds the half-boundary in absolute value it is clamped to
`±BOUNDARY_SIZE/2` matching its sign while the velocity component is
negated and scaled by `0.8`. -/
theorem update_position_contained_and_reflected :
    (∀ (b : Bird) (i : Fin 3), |(Bird.update b).position i| ≤ BOUNDARY_SIZE / 2) ∧
    (∀ (b : Bird) (i : Fin 3), BOUNDARY_SIZE / 2 < |posAfterMove b i i| →
      (axisUpdate b i).position i =
          (if 0 < posAfterMove b i i then BOUNDARY_SIZE / 2 else -(BOUNDARY_SIZE / 2)) ∧
        (axisUpdate b i).velocity i = -(velAfterClamp b i i) * 0.8) := by
  constructor
  · intro b i
    rw [Bird.update]
    match i with
    | 0 =>
      rw [axisUpdate_position_ne _ (by decide), axisUpdate_position_ne _ (by decide)]
      exact axisUpdate_position_self_le b 0
    | 1 =>
      rw [axisUpdate_position_ne _ (by decide)]
      exact axisUpdate_position_self_le (axisUpdate b 0) 1
    | 2 =>
      exact axisUpdate_position_self_le (axisUpdate (axisUpdate b 0) 1) 2
  · intro b i hh
    constructor
    · simp [axisUpdate, hh]
    · simp [axisUpdate, hh]

/-- Claim C7: one step of the neighbour scan accumulates the separation,
alignment and cohesion contributions and increments `neighbour_count`
exactly when the distance is strictly below `NEIGHBOUR_RADIUS`; an entry
at distance `NEIGHBOUR_RADIUS` or beyond leaves the accumulators
untouched. -/
theorem scanStep_strict_threshold :
    (∀ (a b : Bird) (acc : ScanAcc), a.distance_to b < NEIGHBOUR_RADIUS →
      scanStep a b acc =
        { separation := fun k => acc.separation k + (a.position k - b.position k),
          alignment := fun k => acc.alignment k + b.velocity k,
          cohesion := fun k => acc.cohesion k + b.position k,
          count := acc.count + 1 }) ∧
    (∀ (a b : Bird) (acc : ScanAcc), NEIGHBOUR_RADIUS ≤ a.distance_to b →
      scanStep a b acc = acc) := by
  constructor
  · intro a b acc h
    simp [scanStep, h]
  · intro a b acc h
    simp [scanStep, not_lt.mpr h]

/-- Claim C1 (code evaluation): the pointer-identity skip in
`Flock::update` compares addresses from two distinct allocations and never
fires, so a bird is counted in its own `neighbour_count`: scanning the
one-bird snapshot `[defaultBird]` for `defaultBird` itself yields count 1,
not 0. -/
theorem scan_counts_self : (scan defaultBird [defaultBird]).count = 1 := by
  have h : defaultBird.distance_to defaultBird < NEIGHBOUR_RADIUS := by
    simp only [Bird.distance_to, defaultBird, sub_self, mul_zero, add_zero,
      Real.sqrt_zero, NEIGHBOUR_RADIUS]
    norm_num
  simp [scan, scanStep, h, ScanAcc.init]

/-- For a bird whose velocity and acceleration are both all-zero, one axis
iteration keeps both all-zero and its clamp condition is false. -/
theorem zero_state_axisUpdate (b : Bird) (j : Fin 3)
    (hv : ∀ i, b.velocity i = 0) (ha : ∀ i, b.acceleration i = 0) :
    speedOf (velAfterAccel b j) ≤ MAX_SPEED ∧
    (∀ i, (axisUpdate b j).velocity i = 0) ∧
    (∀ i, (axisUpdate b j).acceleration i = 0) := by
  have hva : velAfterAccel b j = fun _ => (0 : ℝ) := by
    funext k
    rcases eq_or_ne k j with rfl | hkj
    · simp only [velAfterAccel]
      rw [Function.update_same, hv k, ha k, add_zero]
    · simp only [velAfterAccel]
      rw [Function.update_noteq hkj, hv k]
  have hsp : speedOf (velAfterAccel b j) = 0 := by
    rw [hva, speedOf]
    simp
  have hclamp : velAfterClamp b j = velAfterAccel b j := by
    have hns : ¬ MAX_SPEED < speedOf (velAfterAccel b j) := by
      rw [hsp]
      exact not_lt.mpr (le_of_lt MAX_SPEED_pos)
    simp [velAfterClamp, hns]
  refine ⟨by rw [hsp]; exact le_of_lt MAX_SPEED_pos, ?_, ?_⟩
  · intro i
    by_cases hh : BOUNDARY_SIZE / 2 < |posAfterMove b j j|
    · have hvel : (axisUpdate b j).velocity =
          Function.update (velAfterClamp b j) j (-(velAfterClamp b j j) * 0.8) := by
        simp [axisUpdate, hh]
      rw [hvel]
      rcases eq_or_ne i j with rfl | hij
      · rw [Function.update_same, hclamp, hva]
        norm_num
      · rw [Function.update_noteq hij, hclamp, hva]
    · have hvel : (axisUpdate b j).velocity = velAfterClamp b j := by
        simp [axisUpdate, hh]
      rw [hvel, hclamp, hva]
  · intro i
    rw [axisUpdate_acceleration]
    rcases eq_or_ne i j with rfl | hij
    · rw [Function.update_same]
    · rw [Function.update_noteq hij, ha i]

/-- Claim C8 (amended): the division `MAX_SPEED/speed` sits under the
guard `speed > MAX_SPEED`, so when the recomputed speed is at most
`MAX_SPEED` no scaling happens; for a bird with zero velocity and zero
accumulated acceleration the clamp condition is false on all three axis
iterations and the velocity is left untouched (no division by zero). -/
theorem clamp_division_guarded :
    (∀ (b : Bird) (i : Fin 3), speedOf (velAfterAccel b i) ≤ MAX_SPEED →
      velAfterClamp b i = velAfterAccel b i) ∧
    (∀ b : Bird, (∀ i, b.velocity i = 0) → (∀ i, b.acceleration i = 0) →
      speedOf (velAfterAccel b 0) ≤ MAX_SPEED ∧
      speedOf (velAfterAccel (axisUpdate b 0) 1) ≤ MAX_SPEED ∧
      speedOf (velAfterAccel (axisUpdate (axisUpdate b 0) 1) 2) ≤ MAX_SPEED ∧
      ∀ i, (Bird.update b).velocity i = b.velocity i) := by
  constructor
  · intro b i hc
    simp [velAfterClamp, not_lt.mpr hc]
  · intro b hv ha
    obtain ⟨h0s, h0v, h0a⟩ := zero_state_axisUpdate b 0 hv ha
    obtain ⟨h1s, h1v, h1a⟩ := zero_state_axisUpdate (axisUpdate b 0) 1 h0v h0a
    obtain ⟨h2s, h2v, _⟩ := zero_state_axisUpdate (axisUpdate (axisUpdate b 0) 1) 2 h1v h1a
    refine ⟨h0s, h1s, h2s, fun i => ?_⟩
    rw [Bird.update, h2v i, hv i]

/-- Witness for C8: the all-zero bird is not renormalized and its
velocity survives `Bird::update` unchanged. -/
theorem clamp_division_guarded_witness :
    velAfterClamp defaultBird 0 = velAfterAccel defaultBird 0 ∧
    (Bird.update defaultBird).velocity 0 = defaultBird.velocity 0 := by
  have hz : ∀ i, defaultBird.velocity i = 0 := fun _ => rfl
  have ha : ∀ i, defaultBird.acceleration i = 0 := fun _ => rfl
  have hs : speedOf (velAfterAccel defaultBird 0) ≤ MAX_SPEED :=
    (clamp_division_guarded.2 defaultBird hz ha).1
  exact ⟨clamp_division_guarded.1 defaultBird 0 hs,
    (clamp_division_guarded.2 defaultBird hz ha).2.2.2 0⟩

/-- Bird whose velocity and acceleration cancel per axis without being
individually zero; input refuting C8's claim that the clamp never fires
for such birds. -/
noncomputable def birdC8 : Bird :=
  { position := fun _ => 0, velocity := ![0, 0.1, 0], acceleration := ![0, -0.1, 0] }

/-- Counterexample to claim C8 as stated: `birdC8`'s velocity plus
acceleration is the zero vector on every axis, yet the clamp condition of
the first axis iteration of `Bird::update` holds — the recomputed speed is
`0.1 > MAX_SPEED`, so the division `MAX_SPEED/speed` is evaluated. -/
theorem clamp_fires_despite_cancelling_sum :
    birdC8.velocity 0 + birdC8.acceleration 0 = 0 ∧
    birdC8.velocity 1 + birdC8.acceleration 1 = 0 ∧
    birdC8.velocity 2 + birdC8.acceleration 2 = 0 ∧
    MAX_SPEED < speedOf (velAfterAccel birdC8 0) := by
  refine ⟨by norm_num [birdC8], by norm_num [birdC8], by norm_num [birdC8], ?_⟩
  have h0 : velAfterAccel birdC8 0 0 = 0 := by
    simp [velAfterAccel, birdC8]
  have h1 : velAfterAccel birdC8 0 1 = 0.1 := by
    simp [velAfterAccel, birdC8, Function.update_apply]
  have h2 : velAfterAccel birdC8 0 2 = 0 := by
    simp [velAfterAccel, birdC8, Function.update_apply]
  rw [speedOf, h0, h1, h2]
  rw [show (0 * 0 + 0.1 * 0.1 + 0 * 0 : ℝ) = 0.1 ^ 2 by norm_num,
    Real.sqrt_sq (by norm_num : (0 : ℝ) ≤ 0.1)]
  norm_num [MAX_SPEED]

/-- Running a nodup schedule from `bs`: each listed index gets the
snapshot-driven update of its original entry, every other slot keeps its
old value. -/
theorem runSchedule_getElem (snapshot : List Bird) :
    ∀ (order : List ℕ) (bs : List Bird), order.Nodup → ∀ j : ℕ,
      (runSchedule snapshot order bs)[j]? =
        if j ∈ order then (bs[j]?).map (stepBird snapshot) else bs[j]? := by
  intro order
  induction order with
  | nil =>
    intro bs _ j
    simp [runSchedule]
  | cons k rest ih =>
    intro bs hnd j
    have hk : k ∉ rest := (List.nodup_cons.mp hnd).1
    have hrest : rest.Nodup := (List.nodup_cons.mp hnd).2
    have hstep : runSchedule snapshot (k :: rest) bs =
        runSchedule snapshot rest
          (bs.set k (stepBird snapshot (bs.getD k defaultBird))) := rfl
    rw [hstep, ih _ hrest j]
    rcases eq_or_ne j k with rfl | hjk
    · rw [if_neg hk, if_pos (List.mem_cons_self j rest)]
      by_cases hlt : j < bs.length
      · rw [List.getElem?_set, if_pos rfl, if_pos hlt,
          List.getD_eq_getElem?_getD, List.getElem?_eq_getElem hlt]
        simp
      · rw [List.getElem?_set, if_pos rfl, if_neg hlt,
          List.getElem?_eq_none (not_lt.mp hlt)]
        simp
    · rw [List.getElem?_set_ne hjk.symm]
      by_cases hmem : j ∈ rest
      · rw [if_pos hmem, if_pos (List.mem_cons_of_mem k hmem)]
      · rw [if_neg hmem, if_neg (by simp [List.mem_cons, hjk, hmem])]

/-- Claim C3: processing the birds sequentially in any order, each update
reading only the fixed pre-tick snapshot and its own bird's state, gives
exactly the result of `Flock::update` — the post-tick flock is a
deterministic function of the pre-tick flock, independent of scheduling. -/
theorem flock_update_deterministic (f : Flock) (order : List ℕ)
    (h : order.Perm (List.range f.birds.length)) :
    runSchedule f.birds order f.birds = (Flock.update f).birds := by
  have hnd : order.Nodup := h.nodup_iff.mpr (List.nodup_range _)
  apply List.ext_getElem?
  intro j
  rw [runSchedule_getElem f.birds order f.birds hnd j]
  have hmem : j ∈ order ↔ j < f.birds.length := by
    rw [h.mem_iff, List.mem_range]
  by_cases hj : j < f.birds.length
  · rw [if_pos (hmem.mpr hj)]
    simp [Flock.update, List.getElem?_map]
  · rw [if_neg fun hc => hj (hmem.mp hc)]
    have h1 : f.birds[j]? = none := List.getElem?_eq_none (not_lt.mp hj)
    simp [Flock.update, List.getElem?_map, h1]

/-- A concrete two-bird flock for the scheduling witness. -/
noncomputable def flockW : Flock := ⟨[birdA, birdB]⟩

/-- Witness for C3: updating the two birds of `flockW` in reversed order
gives exactly `Flock::update`'s result. -/
theorem flock_update_deterministic_witness :
    runSchedule flockW.birds [1, 0] flockW.birds = (Flock.update flockW).birds :=
  flock_update_deterministic flockW [1, 0] (by decide)

/-! ### Branch characterisations used for concrete evaluations -/

theorem velAfterClamp_of_le (b : Bird) (i : Fin 3)
    (hc : speedOf (velAfterAccel b i) ≤ MAX_SPEED) :
    velAfterClamp b i = velAfterAccel b i := by
  simp [velAfterClamp, not_lt.mpr hc]

theorem velAfterClamp_of_lt (b : Bird) (i : Fin 3)
    (hc : MAX_SPEED < speedOf (velAfterAccel b i)) :
    velAfterClamp b i = Function.update (velAfterAccel b i) i
      (velAfterAccel b i i * (MAX_SPEED / speedOf (velAfterAccel b i))) := by
  simp [velAfterClamp, hc]

theorem axisUpdate_of_nohit (b : Bird) (i : Fin 3)
    (hh : |posAfterMove b i i| ≤ BOUNDARY_SIZE / 2) :
    axisUpdate b i =
      { position := posAfterMove b i,
        velocity := velAfterClamp b i,
        acceleration := Function.update b.acceleration i 0 } := by
  simp [axisUpdate, not_lt.mpr hh]

theorem axisUpdate_of_hit (b : Bird) (i : Fin 3)
    (hh : BOUNDARY_SIZE / 2 < |posAfterMove b i i|) :
    axisUpdate b i =
      { position := Function.update (posAfterMove b i) i
          (if 0 < posAfterMove b i i then BOUNDARY_SIZE / 2 else -(BOUNDARY_SIZE / 2)),
        velocity := Function.update (velAfterClamp b i) i (-(velAfterClamp b i i) * 0.8),
        acceleration := Function.update b.acceleration i 0 } := by
  simp [axisUpdate, hh]

theorem speedOf_eval (a b c : ℝ) :
    speedOf ![a, b, c] = Real.sqrt (a * a + b * b + c * c) := by
  rw [speedOf]
  simp

/-- An axis iteration on an axis with zero velocity and acceleration, an
in-bounds position and total speed within the cap changes nothing. -/
theorem axisUpdate_stationary (b : Bird) (j : Fin 3)
    (hvj : b.velocity j = 0) (haj : b.acceleration j = 0)
    (hpj : |b.position j| ≤ BOUNDARY_SIZE / 2)
    (hs : speedOf b.velocity ≤ MAX_SPEED) :
    axisUpdate b j = b := by
  have hva : velAfterAccel b j = b.velocity := by
    simp only [velAfterAccel]
    rw [haj, add_zero, Function.update_eq_self]
  have hvc : velAfterClamp b j = b.velocity := by
    rw [velAfterClamp_of_le b j (by rw [hva]; exact hs), hva]
  have hpm : posAfterMove b j = b.position := by
    simp only [posAfterMove]
    rw [hvc, hvj, add_zero, Function.update_eq_self]
  have hnohit : |posAfterMove b j j| ≤ BOUNDARY_SIZE / 2 := by
    rw [hpm]
    exact hpj
  rw [axisUpdate_of_nohit b j hnohit, hpm, hvc]
  have hacc : Function.update b.acceleration j 0 = b.acceleration := by
    rw [← haj, Function.update_eq_self]
  rw [hacc]

/-- The C5 scenario bird: sitting on the +x boundary with a small +x
velocity and no accumulated force. -/
noncomputable def bird5 : Bird :=
  { position := ![BOUNDARY_SIZE / 2, 0, 0], velocity := ![0.01, 0, 0],
    acceleration := fun _ => 0 }

/-- `bird5` after its x-axis iteration: reflected velocity, clamped position. -/
noncomputable def bird5r : Bird :=
  { position := ![BOUNDARY_SIZE / 2, 0, 0], velocity := ![-0.008, 0, 0],
    acceleration := fun _ => 0 }

theorem velAfterAccel_bird5 : velAfterAccel bird5 0 = ![0.01, 0, 0] := by
  funext k
  match k with
  | 0 =>
    rw [velAfterAccel, Function.update_same]
    norm_num [bird5]
  | 1 =>
    rw [velAfterAccel, Function.update_noteq (by decide : (1 : Fin 3) ≠ 0)]
    norm_num [bird5]
  | 2 =>
    rw [velAfterAccel, Function.update_noteq (by decide : (2 : Fin 3) ≠ 0)]
    norm_num [bird5]

theorem velAfterClamp_bird5 : velAfterClamp bird5 0 = ![0.01, 0, 0] := by
  have hsp : speedOf (velAfterAccel bird5 0) = 0.01 := by
    rw [velAfterAccel_bird5, speedOf_eval,
      show (0.01 * 0.01 + 0 * 0 + 0 * 0 : ℝ) = 0.01 ^ 2 by norm_num,
      Real.sqrt_sq (by norm_num : (0 : ℝ) ≤ 0.01)]
  rw [velAfterClamp_of_le bird5 0 (by rw [hsp]; norm_num [MAX_SPEED]),
    velAfterAccel_bird5]

theorem posAfterMove_bird5 : posAfterMove bird5 0 0 = 2.51 := by
  simp only [posAfterMove]
  rw [Function.update_same, velAfterClamp_bird5]
  norm_num [bird5, BOUNDARY_SIZE]

theorem axisUpdate_bird5_x : axisUpdate bird5 0 = bird5r := by
  have hhit : BOUNDARY_SIZE / 2 < |posAfterMove bird5 0 0| := by
    rw [posAfterMove_bird5, abs_of_pos (by norm_num : (0 : ℝ) < 2.51)]
    norm_num [BOUNDARY_SIZE]
  rw [axisUpdate_of_hit bird5 0 hhit]
  refine Bird.ext ?_ ?_ ?_
  · funext k
    dsimp only
    match k with
    | 0 =>
      rw [Function.update_same, posAfterMove_bird5,
        if_pos (by norm_num : (0 : ℝ) < 2.51)]
      norm_num [bird5r]
    | 1 =>
      rw [Function.update_noteq (by decide : (1 : Fin 3) ≠ 0)]
      simp only [posAfterMove]
      rw [Function.update_noteq (by decide : (1 : Fin 3) ≠ 0)]
      norm_num [bird5, bird5r]
    | 2 =>
      rw [Function.update_noteq (by decide : (2 : Fin 3) ≠ 0)]
      simp only [posAfterMove]
      rw [Function.update_noteq (by decide : (2 : Fin 3) ≠ 0)]
      norm_num [bird5, bird5r]
  · funext k
    dsimp only
    match k with
    | 0 =>
      rw [Function.update_same, velAfterClamp_bird5]
      norm_num [bird5r]
    | 1 =>
      rw [Function.update_noteq (by decide : (1 : Fin 3) ≠ 0), velAfterClamp_bird5]
      norm_num [bird5r]
    | 2 =>
      rw [Function.update_noteq (by decide : (2 : Fin 3) ≠ 0), velAfterClamp_bird5]
      norm_num [bird5r]
  · funext k
    dsimp only
    match k with
    | 0 =>
      rw [Function.update_same]
      norm_num [bird5r]
    | 1 =>
      rw [Function.update_noteq (by decide : (1 : Fin 3) ≠ 0)]
      norm_num [bird5, bird5r]
    | 2 =>
      rw [Function.update_noteq (by decide : (2 : Fin 3) ≠ 0)]
      norm_num [bird5, bird5r]

theorem speedOf_bird5r : speedOf bird5r.velocity ≤ MAX_SPEED := by
  have : speedOf bird5r.velocity = 0.008 := by
    have hv : bird5r.velocity = ![-0.008, 0, 0] := rfl
    rw [hv, speedOf_eval,
      show (-0.008 * -0.008 + 0 * 0 + 0 * 0 : ℝ) = 0.008 ^ 2 by norm_num,
      Real.sqrt_sq (by norm_num : (0 : ℝ) ≤ 0.008)]
  rw [this]
  norm_num [MAX_SPEED]

theorem update_bird5 : Bird.update bird5 = bird5r := by
  rw [Bird.update, axisUpdate_bird5_x,
    axisUpdate_stationary bird5r 1 (by norm_num [bird5r]) (by norm_num [bird5r])
      (by norm_num [bird5r, BOUNDARY_SIZE]) speedOf_bird5r,
    axisUpdate_stationary bird5r 2 (by norm_num [bird5r]) (by norm_num [bird5r])
      (by norm_num [bird5r, BOUNDARY_SIZE]) speedOf_bird5r]

/-- Claim C5: for the bird at `(BOUNDARY_SIZE/2, 0, 0)` with velocity
`(0.01, 0, 0)` and zero acceleration, one `Bird::update` flips and scales
the x-velocity to `-0.008` and pins the x-position to exactly
`BOUNDARY_SIZE/2`. -/
theorem update_boundary_scenario :
    (Bird.update bird5).velocity 0 = -0.008 ∧
    (Bird.update bird5).position 0 = BOUNDARY_SIZE / 2 := by
  rw [update_bird5]
  constructor
  · norm_num [bird5r]
  · norm_num [bird5r]

/-- Witness for C4: `bird5`'s x-axis iteration overshoots the boundary
(post-integration position `2.51`) and is clamped and reflected. -/
theorem update_position_contained_witness :
    BOUNDARY_SIZE / 2 < |posAfterMove bird5 0 0| ∧
    (axisUpdate bird5 0).position 0 =
      (if 0 < posAfterMove bird5 0 0 then BOUNDARY_SIZE / 2 else -(BOUNDARY_SIZE / 2)) ∧
    (axisUpdate bird5 0).velocity 0 = -(velAfterClamp bird5 0 0) * 0.8 := by
  have hh : BOUNDARY_SIZE / 2 < |posAfterMove bird5 0 0| := by
    rw [posAfterMove_bird5, abs_of_pos (by norm_num : (0 : ℝ) < 2.51)]
    norm_num [BOUNDARY_SIZE]
  exact ⟨hh, (update_position_contained_and_reflected.2 bird5 0 hh).1,
    (update_position_contained_and_reflected.2 bird5 0 hh).2⟩

/-- A bird exactly `NEIGHBOUR_RADIUS` away from the origin. -/
noncomputable def birdUnitX : Bird :=
  { position := ![1, 0, 0], velocity := fun _ => 0, acceleration := fun _ => 0 }

/-- A bird half a radius away from the origin. -/
noncomputable def birdHalfX : Bird :=
  { position := ![0.5, 0, 0], velocity := fun _ => 0, acceleration := fun _ => 0 }

/-- Witness for C7: a bird half a radius away is accumulated, a bird at
exactly `NEIGHBOUR_RADIUS` is not. -/
theorem scanStep_strict_threshold_witness :
    scanStep defaultBird birdHalfX ScanAcc.init =
      { separation := fun k =>
          ScanAcc.init.separation k + (defaultBird.position k - birdHalfX.position k),
        alignment := fun k => ScanAcc.init.alignment k + birdHalfX.velocity k,
        cohesion := fun k => ScanAcc.init.cohesion k + birdHalfX.position k,
        count := ScanAcc.init.count + 1 } ∧
    scanStep defaultBird birdUnitX ScanAcc.init = ScanAcc.init := by
  have hhalf : defaultBird.distance_to birdHalfX < NEIGHBOUR_RADIUS := by
    have h : defaultBird.distance_to birdHalfX = Real.sqrt (0.5 ^ 2) := by
      rw [Bird.distance_to]
      norm_num [defaultBird, birdHalfX]
    rw [h, Real.sqrt_sq (by norm_num : (0 : ℝ) ≤ 0.5)]
    norm_num [NEIGHBOUR_RADIUS]
  have hunit : NEIGHBOUR_RADIUS ≤ defaultBird.distance_to birdUnitX := by
    have h : defaultBird.distance_to birdUnitX = Real.sqrt 1 := by
      rw [Bird.distance_to]
      norm_num [defaultBird, birdUnitX]
    rw [h, Real.sqrt_one]
    norm_num [NEIGHBOUR_RADIUS]
  exact ⟨scanStep_strict_threshold.1 defaultBird birdHalfX ScanAcc.init hhalf,
    scanStep_strict_threshold.2 defaultBird birdUnitX ScanAcc.init hunit⟩

/-! ### Componentwise evaluation helpers for `Function.update` -/

theorem update0_eq (f : Fin 3 → ℝ) (x a b c : ℝ)
    (hx : x = a) (h1 : f 1 = b) (h2 : f 2 = c) :
    Function.update f 0 x = ![a, b, c] := by
  funext k
  match k with
  | 0 =>
    rw [Function.update_same, hx]
    norm_num
  | 1 =>
    rw [Function.update_noteq (by decide : (1 : Fin 3) ≠ 0), h1]
    norm_num
  | 2 =>
    rw [Function.update_noteq (by decide : (2 : Fin 3) ≠ 0), h2]
    norm_num

theorem update1_eq (f : Fin 3 → ℝ) (x a b c : ℝ)
    (hx : x = b) (h0 : f 0 = a) (h2 : f 2 = c) :
    Function.update f 1 x = ![a, b, c] := by
  funext k
  match k with
  | 0 =>
    rw [Function.update_noteq (by decide : (0 : Fin 3) ≠ 1), h0]
    norm_num
  | 1 =>
    rw [Function.update_same, hx]
    norm_num
  | 2 =>
    rw [Function.update_noteq (by decide : (2 : Fin 3) ≠ 1), h2]
    norm_num

/-! ### The C2 counterexample: a diagonal velocity escapes the speed cap -/

/-- Bird with velocity `(0.049, 0.049, 0)` at the origin, no force. -/
noncomputable def birdC2 : Bird :=
  { position := fun _ => 0, velocity := ![0.049, 0.049, 0],
    acceleration := fun _ => 0 }

/-- The x-velocity of `birdC2` after its x-axis clamp. -/
noncomputable def c0 : ℝ := 0.049 * (MAX_SPEED / Real.sqrt 0.004802)

theorem sqrt_004802_pos : (0 : ℝ) < Real.sqrt 0.004802 :=
  Real.sqrt_pos.mpr (by norm_num)

theorem c0_nonneg : 0 ≤ c0 :=
  mul_nonneg (by norm_num)
    (div_nonneg (le_of_lt MAX_SPEED_pos) (Real.sqrt_nonneg _))

theorem c0_le : c0 ≤ 0.049 := by
  have h1 : MAX_SPEED ≤ Real.sqrt 0.004802 :=
    (Real.le_sqrt (le_of_lt MAX_SPEED_pos) (by norm_num)).mpr
      (by norm_num [MAX_SPEED])
  have h2 : MAX_SPEED / Real.sqrt 0.004802 ≤ 1 :=
    div_le_one_of_le₀ h1 (Real.sqrt_nonneg _)
  calc c0 = 0.049 * (MAX_SPEED / Real.sqrt 0.004802) := rfl
    _ ≤ 0.049 * 1 := mul_le_mul_of_nonneg_left h2 (by norm_num)
    _ = 0.049 := by norm_num

theorem c0_sq : c0 * c0 = 0.0002 := by
  calc c0 * c0
      = 0.049 * 0.049 * (MAX_SPEED * MAX_SPEED) /
          (Real.sqrt 0.004802 * Real.sqrt 0.004802) := by
        rw [c0]
        ring
    _ = 0.049 * 0.049 * (MAX_SPEED * MAX_SPEED) / 0.004802 := by
        rw [Real.mul_self_sqrt (by norm_num : (0 : ℝ) ≤ 0.004802)]
    _ = 0.0002 := by
        rw [MAX_SPEED]
        norm_num

/-- `birdC2` after its x-axis iteration. -/
noncomputable def birdC2a : Bird :=
  { position := ![c0, 0, 0], velocity := ![c0, 0.049, 0],
    acceleration := fun _ => 0 }

/-- `birdC2` after its x- and y-axis iterations. -/
noncomputable def birdC2b : Bird :=
  { position := ![c0, 49 / 2550, 0], velocity := ![c0, 49 / 2550, 0],
    acceleration := fun _ => 0 }

theorem velAfterAccel_birdC2 : velAfterAccel birdC2 0 = ![0.049, 0.049, 0] := by
  simp only [velAfterAccel]
  apply update0_eq <;> norm_num [birdC2]

theorem speedOf_birdC2 :
    speedOf (velAfterAccel birdC2 0) = Real.sqrt 0.004802 := by
  rw [velAfterAccel_birdC2, speedOf_eval]
  norm_num

theorem velAfterClamp_birdC2 : velAfterClamp birdC2 0 = ![c0, 0.049, 0] := by
  have hc : MAX_SPEED < speedOf (velAfterAccel birdC2 0) := by
    rw [speedOf_birdC2]
    exact (Real.lt_sqrt (le_of_lt MAX_SPEED_pos)).mpr (by norm_num [MAX_SPEED])
  rw [velAfterClamp_of_lt birdC2 0 hc, speedOf_birdC2, velAfterAccel_birdC2]
  apply update0_eq
  · rw [c0]
    norm_num
  · norm_num
  · norm_num

theorem axisUpdate_birdC2_x : axisUpdate birdC2 0 = birdC2a := by
  have hpm : posAfterMove birdC2 0 0 = c0 := by
    simp only [posAfterMove]
    rw [Function.update_same, velAfterClamp_birdC2]
    norm_num [birdC2]
  have hnohit : |posAfterMove birdC2 0 0| ≤ BOUNDARY_SIZE / 2 := by
    rw [hpm, abs_of_nonneg c0_nonneg]
    have := c0_le
    norm_num [BOUNDARY_SIZE]
    linarith
  rw [axisUpdate_of_nohit birdC2 0 hnohit]
  refine Bird.ext ?_ ?_ ?_
  · dsimp only
    simp only [posAfterMove]
    apply update0_eq
    · rw [velAfterClamp_birdC2]
      norm_num [birdC2]
    · norm_num [birdC2]
    · norm_num [birdC2]
  · dsimp only
    rw [velAfterClamp_birdC2]
    rfl
  · dsimp only
    exact Function.update_eq_self 0 birdC2.acceleration

theorem velAfterAccel_birdC2a : velAfterAccel birdC2a 1 = ![c0, 0.049, 0] := by
  simp only [velAfterAccel]
  apply update1_eq <;> norm_num [birdC2a]

theorem speedOf_birdC2a : speedOf (velAfterAccel birdC2a 1) = 0.051 := by
  rw [velAfterAccel_birdC2a, speedOf_eval, c0_sq,
    show (0.0002 + 0.049 * 0.049 + 0 * 0 : ℝ) = 0.051 ^ 2 by norm_num,
    Real.sqrt_sq (by norm_num : (0 : ℝ) ≤ 0.051)]

theorem velAfterClamp_birdC2a : velAfterClamp birdC2a 1 = ![c0, 49 / 2550, 0] := by
  have hc : MAX_SPEED < speedOf (velAfterAccel birdC2a 1) := by
    rw [speedOf_birdC2a]
    norm_num [MAX_SPEED]
  rw [velAfterClamp_of_lt birdC2a 1 hc, speedOf_birdC2a, velAfterAccel_birdC2a]
  apply update1_eq
  · norm_num [MAX_SPEED]
  · norm_num
  · norm_num

theorem axisUpdate_birdC2_y : axisUpdate birdC2a 1 = birdC2b := by
  have hpm : posAfterMove birdC2a 1 1 = 49 / 2550 := by
    simp only [posAfterMove]
    rw [Function.update_same, velAfterClamp_birdC2a]
    norm_num [birdC2a]
  have hnohit : |posAfterMove birdC2a 1 1| ≤ BOUNDARY_SIZE / 2 := by
    rw [hpm, abs_of_nonneg (by norm_num : (0 : ℝ) ≤ 49 / 2550)]
    norm_num [BOUNDARY_SIZE]
  rw [axisUpdate_of_nohit birdC2a 1 hnohit]
  refine Bird.ext ?_ ?_ ?_
  · dsimp only
    simp only [posAfterMove]
    apply update1_eq
    · rw [velAfterClamp_birdC2a]
      norm_num [birdC2a]
    · norm_num [birdC2a]
    · norm_num [birdC2a]
  · dsimp only
    rw [velAfterClamp_birdC2a]
    rfl
  · dsimp only
    exact Function.update_eq_self 1 birdC2a.acceleration

theorem velAfterAccel_birdC2b : velAfterAccel birdC2b 2 = birdC2b.velocity := by
  simp only [velAfterAccel]
  rw [show birdC2b.acceleration 2 = 0 from rfl, add_zero, Function.update_eq_self]

theorem velAfterClamp_birdC2b : velAfterClamp birdC2b 2 = birdC2b.velocity := by
  have hz : birdC2b.velocity 2 = 0 := by
    norm_num [birdC2b]
  by_cases hc : MAX_SPEED < speedOf (velAfterAccel birdC2b 2)
  · rw [velAfterClamp_of_lt birdC2b 2 hc, velAfterAccel_birdC2b, hz, zero_mul,
      ← hz, Function.update_eq_self]
  · rw [velAfterClamp_of_le birdC2b 2 (not_lt.mp hc), velAfterAccel_birdC2b]

theorem axisUpdate_birdC2_z : axisUpdate birdC2b 2 = birdC2b := by
  have hz : birdC2b.velocity 2 = 0 := by
    norm_num [birdC2b]
  have hpm : posAfterMove birdC2b 2 = birdC2b.position := by
    simp only [posAfterMove]
    rw [velAfterClamp_birdC2b, hz, add_zero, Function.update_eq_self]
  have hnohit : |posAfterMove birdC2b 2 2| ≤ BOUNDARY_SIZE / 2 := by
    rw [hpm, show birdC2b.position 2 = 0 by norm_num [birdC2b]]
    norm_num [BOUNDARY_SIZE]
  rw [axisUpdate_of_nohit birdC2b 2 hnohit, hpm, velAfterClamp_birdC2b]
  refine Bird.ext rfl rfl ?_
  exact Function.update_eq_self 2 birdC2b.acceleration

theorem update_birdC2 : Bird.update birdC2 = birdC2b := by
  rw [Bird.update, axisUpdate_birdC2_x, axisUpdate_birdC2_y, axisUpdate_birdC2_z]

/-- Counterexample to claim C2 as stated: after `Bird::update` of
`birdC2`, the full-vector speed exceeds `MAX_SPEED` by more than 15
percent — far beyond any floating-point tolerance. -/
theorem update_speed_exceeds_cap :
    MAX_SPEED * 1.15 < speedOf ((Bird.update birdC2).velocity) := by
  rw [update_birdC2, show birdC2b.velocity = ![c0, 49 / 2550, 0] from rfl,
    speedOf_eval, c0_sq]
  rw [Real.lt_sqrt (by norm_num [MAX_SPEED] : (0 : ℝ) ≤ MAX_SPEED * 1.15)]
  norm_num [MAX_SPEED]
